import Mathlib

/-!
# sshclient: `Run`, `DialPassword` and `Exec` of `client.go`

A shallow embedding of the three functions of `src/client.go`.

* The secure-shell library and the network are outside the program; what they
  answer is supplied by the structures `Network`, `Client` and `Session`.
* A Go `error` is `Option GoError`, `none` being `nil`. A pointer `*ssh.Client`
  is `Option Client`, `none` being the nil pointer.
* Functions with effects return, next to their value, the list of library
  calls they made (`Event`), in program order.
* Which case of the `select` in `Exec` fires first is decided by timing; it is
  the input `Race`.
* The goroutine started by `Exec` and the channel it sends on are explicit
  state (`Task`, `Chan`) with a step function.
-/

namespace Sshclient

/-! ## Values -/

/-- Dynamic type of a Go error value, as far as `Run` tells them apart:
`*ssh.ExitError` (with the exit status of its `Waitmsg`) or anything else. -/
inductive GoError where
  | exitError (status : Int) (msg : String)
  | other (msg : String)
  deriving DecidableEq, Repr

/-- The method `Error()` of an error value. -/
def GoError.Error : GoError → String
  | .exitError _ msg => msg
  | .other msg => msg

/-- The struct `Results` (client.go:27-32). -/
structure Results where
  err : Option GoError
  rc : Int
  stdout : String
  stderr : String
  deriving DecidableEq, Repr

/-- The constant `termType` (client.go:17-19). -/
def termType : String := "xterm"

/-- Opcode `ssh.ECHO` of the library (RFC 4254, section 8). -/
def ECHO : Nat := 53

/-- Opcode `ssh.TTY_OP_ISPEED` of the library. -/
def TTY_OP_ISPEED : Nat := 128

/-- Opcode `ssh.TTY_OP_OSPEED` of the library. -/
def TTY_OP_OSPEED : Nat := 129

/-- The type `ssh.TerminalModes`: opcode and value pairs. -/
abbrev TerminalModes := List (Nat × Nat)

/-- What `session.Run(cmd)` does: the bytes the command wrote to the two sinks
bound to `session.Stdout` and `session.Stderr`, and the error returned. -/
structure RunReply where
  stdout : String
  stderr : String
  err : Option GoError

/-- The answers of one remote session: to `RequestPty(term, h, w, modes)` and
to `Run(cmd)`. -/
structure Session where
  RequestPty : String → Nat → Nat → TerminalModes → Option GoError
  Run : String → RunReply

/-- The answers of a live connection handle (the target of a non-nil
`*ssh.Client`): the result of `NewSession()`. -/
structure Client where
  NewSession : Except GoError Session

/-- The raw connection returned by `net.DialTimeout`. -/
structure Conn where
  id : Nat
  deriving DecidableEq, Repr

/-- The fields of `ssh.ClientConfig` that `DialPassword` sets: `User`, and the
password of the single `ssh.Password` method in `Auth`. -/
structure ClientConfig where
  User : String
  Auth : List String
  deriving DecidableEq, Repr

/-- The answers of the network and of the handshake: `net.DialTimeout(network,
address, d)` with `d` in nanoseconds, and `ssh.NewClientConn(conn, addr,
config)` followed by `ssh.NewClient`. -/
structure Network where
  DialTimeout : String → String → Int → Except GoError Conn
  NewClientConn : Conn → String → ClientConfig → Except GoError Client

/-- A library call made by the program. -/
inductive Event where
  | dialTimeout (address : String) (d : Int)
  | newClientConn (address : String)
  | newSession
  | requestPty (term : String) (h w : Nat) (modes : TerminalModes)
  | sessionRun (cmd : String)
  | sessionClose
  | makeChan (cap : Nat)
  | goRun (cmd : String)
  | timeAfter (d : Int)
  | clientClose
  deriving DecidableEq, Repr

/-- How a call of a Go function ends: it returns a value, or a run-time panic
unwinds it. -/
inductive Completion (α : Type) where
  | returned (v : α)
  | panicked (msg : String)
  deriving DecidableEq, Repr

/-- The message of the Go run-time panic on a nil pointer. -/
def nilDeref : String :=
  "runtime error: invalid memory address or nil pointer dereference"

/-- Conversion to `int64` (two's complement wrap-around). -/
def toInt64 (x : Int) : Int :=
  (x + 2 ^ 63) % 2 ^ 64 - 2 ^ 63

/-- The expression `time.Duration(timeout) * time.Second`, in nanoseconds. -/
def seconds (timeout : Int) : Int :=
  toInt64 (toInt64 timeout * 1000000000)

/-- The verb `%d` of `fmt` on an `int`: a minus sign for a negative number,
then the decimal digits of the magnitude. -/
def fmtD (i : Int) : String :=
  if i < 0 then "-" ++ Nat.repr i.natAbs else Nat.repr i.natAbs

/-! ## `DialPassword` (client.go:34-57) -/

/-- The function `DialPassword`: the handle (nil on failure), the error, and
the calls made. -/
def DialPassword (net : Network) (server username password : String) (timeout : Int) :
    (Option Client × Option GoError) × List Event :=
  let config : ClientConfig := { User := username, Auth := [password] }
  match net.DialTimeout "tcp" server (seconds timeout) with
  | .error err => ((none, some err), [.dialTimeout server (seconds timeout)])
  | .ok conn =>
    match net.NewClientConn conn server config with
    | .error err =>
      ((none, some err), [.dialTimeout server (seconds timeout), .newClientConn server])
    | .ok c =>
      ((some c, none), [.dialTimeout server (seconds timeout), .newClientConn server])

/-! ## `Run` (client.go:59-87) -/

/-- The terminal modes built at client.go:67-71. -/
def modes : TerminalModes :=
  [(ECHO, 0), (TTY_OP_ISPEED, 14400), (TTY_OP_OSPEED, 14400)]

/-- The function `Run` on a live handle: the `Results` value and the calls
made. `session.Close()` is deferred right after the session is obtained, so it
is the last call on both later exits. -/
def Run (client : Client) (cmd : String) : Results × List Event :=
  match client.NewSession with
  | .error err => ({ err := some err, rc := 0, stdout := "", stderr := "" }, [.newSession])
  | .ok session =>
    match session.RequestPty termType 80 40 modes with
    | some err =>
      ({ err := some (.other ("request for pseudo terminal failed: " ++ err.Error)),
         rc := 0, stdout := "", stderr := "" },
       [.newSession, .requestPty termType 80 40 modes, .sessionClose])
    | none =>
      let reply := session.Run cmd
      let rc : Int :=
        match reply.err with
        | some (.exitError status _) => status
        | _ => 0
      ({ err := none, rc := rc, stdout := reply.stdout, stderr := reply.stderr },
       [.newSession, .requestPty termType 80 40 modes, .sessionRun cmd, .sessionClose])

/-! ## Channel and goroutine of `Exec` (client.go:98-101) -/

/-- A Go channel of `Results`: its capacity, the buffered values, and the
number of goroutines parked in a receive on it. -/
structure Chan where
  cap : Nat
  buf : List Results
  receivers : Nat
  deriving DecidableEq, Repr

/-- The expression `make(chan Results)`: no capacity argument, so capacity 0. -/
def makeChan : Chan := { cap := 0, buf := [], receivers := 0 }

/-- A send `c <- r`: it completes when a receiver is parked on the channel
(the value is handed over) or the buffer has room; otherwise the sender
blocks, which is `none`. -/
def Chan.trySend (c : Chan) (r : Results) : Option Chan :=
  if 0 < c.receivers then some { c with receivers := c.receivers - 1 }
  else if c.buf.length < c.cap then some { c with buf := c.buf ++ [r] }
  else none

/-- The goroutine `go func() { c <- Run(client, cmd) }()`: evaluating
`Run(client, cmd)`, then at the send with the value to deliver, then exited.
The send is its only way to the end of the function body. -/
inductive Task where
  | running
  | sending (r : Results)
  | exited
  deriving DecidableEq, Repr

/-- One scheduling step of the goroutine. While it is running, `finish` says
whether `Run` returns now and with what; at the send it retries the send. -/
def Task.step (c : Chan) (finish : Option Results) : Task → Chan × Task
  | .running =>
    match finish with
    | none => (c, .running)
    | some r => (c, .sending r)
  | .sending r =>
    match c.trySend r with
    | some c1 => (c1, .exited)
    | none => (c, .sending r)
  | .exited => (c, .exited)

/-- The goroutine scheduled once per entry of `sched`. -/
def Task.steps (c : Chan) (t : Task) : List (Option Results) → Chan × Task
  | [] => (c, t)
  | f :: fs =>
    let s := Task.step c f t
    Task.steps s.1 s.2 fs

/-! ## `Exec` (client.go:90-113) -/

/-- Which case of the `select` is ready first: the receive from the channel
or the timer of `time.After`. -/
inductive Race where
  | result
  | deadline
  deriving DecidableEq, Repr

/-- The state when a call of `Exec` ends: how it ended, with the tuple
`(rc, stdout, stderr, err)` when it returned; the calls made, in order; and
the channel and goroutine it leaves behind, if it created them. -/
structure ExecOutcome where
  result : Completion (Int × String × String × Option GoError)
  trace : List Event
  chan : Option Chan
  task : Option Task

/-- The function `Exec`.

`defer client.Close()` (line 93) stands before the test of `err`. The type
`ssh.Client` embeds the interface `ssh.Conn` and `Close` is promoted from that
field, so executing the defer statement evaluates `(*client).Conn`: with a nil
`client` this is a nil-pointer dereference and `Exec` panics there.

With a live handle, the deferred `Close` runs once when `Exec` returns, on
every return. The loop body runs once, both cases of the `select` return.
In the `result` case the caller is parked in the `select` when the goroutine
sends, and receives the value of `Run(client, cmd)`; in the `deadline` case
the goroutine is still evaluating `Run` and the caller has left the `select`.
In the `deadline` case `trace` lists the calls of the calling goroutine only:
how far the background `Run` has got by then (which of `NewSession`,
`RequestPty`, `session.Run` it has issued) is not recorded. -/
def Exec (net : Network) (race : Race) (server username password cmd : String)
    (timeout : Int) : ExecOutcome :=
  let d := DialPassword net server username password timeout
  match d.1.1 with
  | none => { result := .panicked nilDeref, trace := d.2, chan := none, task := none }
  | some client =>
    match d.1.2 with
    | some err =>
      { result := .returned (0, "", "", some err), trace := d.2 ++ [.clientClose],
        chan := none, task := none }
    | none =>
      let c := makeChan
      let started := d.2 ++ [.makeChan c.cap, .goRun cmd, .timeAfter (seconds timeout)]
      match race with
      | .result =>
        let run := Run client cmd
        let s := Task.step { c with receivers := 1 } none (.sending run.1)
        { result := .returned (run.1.rc, run.1.stdout, run.1.stderr, run.1.err),
          trace := started ++ run.2 ++ [.clientClose], chan := some s.1, task := some s.2 }
      | .deadline =>
        { result := .returned (0, "", "",
            some (.other ("Command timed out after " ++ fmtD timeout ++ " seconds"))),
          trace := started ++ [.clientClose], chan := some c, task := some .running }

/-- The goroutine and channel an ended call of `Exec` leaves behind, after the
goroutine has been scheduled once per entry of `sched`; `none` when the call
created neither. No goroutine receives on the channel any more: it is local
to `Exec`. -/
def ExecOutcome.later (o : ExecOutcome) (sched : List (Option Results)) :
    Option (Chan × Task) :=
  match o.chan, o.task with
  | some c, some t => some (Task.steps c t sched)
  | _, _ => none

/-- A command ran to completion with exit status `k`: the library reports no
error and `k = 0`, or it reports an `*ssh.ExitError` with exit status `k`. -/
def RunReply.exitedWith (reply : RunReply) (k : Int) : Prop :=
  (reply.err = none ∧ k = 0) ∨ (∃ msg, reply.err = some (.exitError k msg))

/-! ## Concrete servers -/

/-- A session that grants the pseudo-terminal and answers `Run` with `reply`. -/
def sessionReplying (reply : RunReply) : Session :=
  { RequestPty := fun _ _ _ _ => none, Run := fun _ => reply }

/-- A session that refuses the pseudo-terminal with error `e`. -/
def sessionNoPty (e : GoError) : Session :=
  { RequestPty := fun _ _ _ _ => some e,
    Run := fun _ => { stdout := "never", stderr := "never", err := none } }

/-- A network on which every dial and handshake succeeds and gives `client`. -/
def netGiving (client : Client) : Network :=
  { DialTimeout := fun _ _ _ => .ok { id := 1 }, NewClientConn := fun _ _ _ => .ok client }

/-- A network on which the dial itself fails. -/
def netUnreachable : Network :=
  { DialTimeout := fun _ _ _ => .error (.other "dial tcp: connection refused"),
    NewClientConn := fun _ _ _ => .ok { NewSession := .error (.other "unused") } }

/-- A network on which the dial succeeds and the handshake rejects the
password. -/
def netRejecting : Network :=
  { DialTimeout := fun _ _ _ => .ok { id := 1 },
    NewClientConn := fun _ _ _ => .error (.other "ssh: unable to authenticate") }

/-- A server on which `exit 7` runs and exits with status 7. -/
def clientExit7 : Client :=
  { NewSession := .ok (sessionReplying
      { stdout := "", stderr := "", err := some (.exitError 7 "Process exited with: 7") }) }

/-- A server on which the connection drops while the command runs, after it
wrote some output. -/
def clientDropped : Client :=
  { NewSession := .ok (sessionReplying
      { stdout := "12:00 up", stderr := "", err := some (.other "EOF") }) }

/-- A server that refuses to open a session. -/
def clientNoSession : Client :=
  { NewSession := .error (.other "ssh: rejected: administratively prohibited") }

/-- A server that opens a session and refuses the pseudo-terminal. -/
def clientNoPty : Client :=
  { NewSession := .ok (sessionNoPty (.other "ssh: pty-req failed")) }

/-! ## Lemmas on the model -/

/-- The rendering `fmtD` of `%d` is the decimal numeral of the integer, as
given by the library rendering `toString`. -/
theorem fmtD_eq_toString (i : Int) : fmtD i = toString i := by
  cases i with
  | ofNat m =>
    have h : ¬ (Int.ofNat m < 0) := not_lt.mpr (Int.ofNat_nonneg m)
    simp only [fmtD, h, if_false]
    rfl
  | negSucc m =>
    have h : Int.negSucc m < 0 := Int.negSucc_lt_zero m
    simp only [fmtD, h, if_true]
    rfl

/-- A successful dial gives a live handle and a nil error, never both. -/
theorem DialPassword_cases (net : Network) (server username password : String)
    (timeout : Int) :
    (∃ e, (DialPassword net server username password timeout).1 = (none, some e)) ∨
    (∃ c, (DialPassword net server username password timeout).1 = (some c, none)) := by
  unfold DialPassword
  dsimp only
  split
  · exact Or.inl ⟨_, rfl⟩
  · split
    · exact Or.inl ⟨_, rfl⟩
    · exact Or.inr ⟨_, rfl⟩

/-- A non-nil error in the value of `Run` comes with zero exit code and empty
output. -/
theorem Run_err_defaults (client : Client) (cmd : String) (e : GoError)
    (h : (Run client cmd).1.err = some e) :
    (Run client cmd).1.rc = 0 ∧ (Run client cmd).1.stdout = "" ∧
      (Run client cmd).1.stderr = "" := by
  unfold Run at h ⊢
  cases hs : client.NewSession with
  | error e1 => simp
  | ok session =>
    cases hp : session.RequestPty termType 80 40 modes with
    | some e1 => simp [hp]
    | none => simp [hs, hp] at h

/-- A send on a channel without capacity and without a parked receiver
blocks. -/
theorem trySend_unbuffered (c : Chan) (r : Results) (hcap : c.cap = 0)
    (hrecv : c.receivers = 0) : c.trySend r = none := by
  simp [Chan.trySend, hcap, hrecv]

/-- With an unbuffered channel nobody receives on, a goroutine that has not
exited never exits, and once at the send it stays there with its value. -/
theorem steps_unbuffered (c : Chan) (hcap : c.cap = 0) (hrecv : c.receivers = 0)
    (sched : List (Option Results)) (t : Task) :
    (Task.steps c t sched).1 = c ∧
      (t ≠ .exited → (Task.steps c t sched).2 ≠ .exited) ∧
      (∀ r, t = .sending r → (Task.steps c t sched).2 = .sending r) := by
  induction sched generalizing t with
  | nil => simp [Task.steps]
  | cons f fs ih =>
    cases t with
    | running =>
      cases f with
      | none =>
        have h := ih .running
        simpa [Task.steps, Task.step] using ⟨h.1, h.2.1 (by simp)⟩
      | some r =>
        have h := ih (.sending r)
        simpa [Task.steps, Task.step] using ⟨h.1, h.2.1 (by simp)⟩
    | sending r =>
      have h := ih (.sending r)
      have hs := trySend_unbuffered c r hcap hrecv
      simp only [Task.steps, Task.step, hs]
      exact ⟨h.1, fun _ => h.2.1 (by simp), fun r1 hr => by
        cases hr
        exact h.2.2 r rfl⟩
    | exited =>
      have h := ih .exited
      simp only [Task.steps, Task.step]
      exact ⟨h.1, fun hne => absurd rfl hne, fun r hr => by cases hr⟩

/-- With a live handle, the deferred `client.Close()` runs exactly once on
both returns of `Exec`. -/
theorem Exec_live_closes_once (net : Network) (race : Race)
    (server username password cmd : String) (timeout : Int) (client : Client)
    (hdial : (DialPassword net server username password timeout).1 = (some client, none)) :
    (Exec net race server username password cmd timeout).trace.count .clientClose = 1 := by
  have htr : (DialPassword net server username password timeout).2.count .clientClose = 0 := by
    unfold DialPassword
    dsimp only
    split
    · simp
    · split <;> simp
  have hrun : (Run client cmd).2.count .clientClose = 0 := by
    unfold Run
    split
    · simp
    · split <;> simp
  have h1 : (DialPassword net server username password timeout).1.1 = some client := by
    rw [hdial]
  have h2 : (DialPassword net server username password timeout).1.2 = none := by
    rw [hdial]
  cases race <;> simp [Exec, h1, h2, htr, hrun, List.count_append]

/-- The value of `Run` when the session and the pseudo-terminal are granted
and the command exits with status `k`. -/
theorem Run_value_of_exited (client : Client) (cmd : String) (session : Session) (k : Int)
    (hs : client.NewSession = .ok session)
    (hp : session.RequestPty termType 80 40 modes = none)
    (hk : (session.Run cmd).exitedWith k) :
    (Run client cmd).1 =
      { err := none, rc := k, stdout := (session.Run cmd).stdout,
        stderr := (session.Run cmd).stderr } := by
  unfold Run
  rcases hk with ⟨he, hk0⟩ | ⟨msg, he⟩
  · simp [hs, hp, he, hk0]
  · simp [hs, hp, he]

/-- What `Exec` returns when the dial succeeded and the receive case fires. -/
theorem Exec_result_value (net : Network) (server username password cmd : String)
    (timeout : Int) (client : Client)
    (hdial : (DialPassword net server username password timeout).1 = (some client, none)) :
    (Exec net .result server username password cmd timeout).result =
      .returned ((Run client cmd).1.rc, (Run client cmd).1.stdout, (Run client cmd).1.stderr,
        (Run client cmd).1.err) := by
  have h1 : (DialPassword net server username password timeout).1.1 = some client := by
    rw [hdial]
  have h2 : (DialPassword net server username password timeout).1.2 = none := by
    rw [hdial]
  simp [Exec, h1, h2]

/-- What `Exec` returns when the dial succeeded and the timer case fires. -/
theorem Exec_deadline_value (net : Network) (server username password cmd : String)
    (timeout : Int) (client : Client)
    (hdial : (DialPassword net server username password timeout).1 = (some client, none)) :
    (Exec net .deadline server username password cmd timeout).result =
      .returned (0, "", "",
        some (.other ("Command timed out after " ++ fmtD timeout ++ " seconds"))) := by
  have h1 : (DialPassword net server username password timeout).1.1 = some client := by
    rw [hdial]
  have h2 : (DialPassword net server username password timeout).1.2 = none := by
    rw [hdial]
  simp [Exec, h1, h2]

/-- When the dial failed, `Exec` panics at the defer statement, having made
only the calls of `DialPassword`. -/
theorem Exec_nil_handle (net : Network) (race : Race) (server username password cmd : String)
    (timeout : Int) (e : GoError)
    (hdial : (DialPassword net server username password timeout).1 = (none, some e)) :
    (Exec net race server username password cmd timeout).result = .panicked nilDeref ∧
      (Exec net race server username password cmd timeout).trace =
        (DialPassword net server username password timeout).2 := by
  have h1 : (DialPassword net server username password timeout).1.1 = none := by
    rw [hdial]
  simp [Exec, h1]

/-! ## The claims -/

/-- C1: when the dial succeeded and the receive case of the `select` fires,
`Exec` returns the four fields of the value `r` of `Run` unchanged, as
`(r.rc, r.stdout, r.stderr, r.err)`; so a command that exits with code `k`
having written `out` and `err` yields `(k, out, err, nil)`. -/
theorem Exec_returns_result_verbatim (net : Network)
    (server username password cmd : String) (timeout : Int) (client : Client) (r : Results)
    (hdial : (DialPassword net server username password timeout).1 = (some client, none))
    (hr : (Run client cmd).1 = r) :
    (Exec net .result server username password cmd timeout).result =
        .returned (r.rc, r.stdout, r.stderr, r.err) ∧
      (∀ (session : Session) (k : Int), client.NewSession = .ok session →
        session.RequestPty termType 80 40 modes = none → (session.Run cmd).exitedWith k →
        (Exec net .result server username password cmd timeout).result =
          .returned (k, (session.Run cmd).stdout, (session.Run cmd).stderr, none)) := by
  have h := Exec_result_value net server username password cmd timeout client hdial
  refine ⟨by rw [h, hr], ?_⟩
  intro session k hs hp hk
  rw [h, Run_value_of_exited client cmd session k hs hp hk]

/-- Witness of C1: `exit 7` on a server that runs it, timeout 5. -/
theorem Exec_returns_result_verbatim_witness :
    (DialPassword (netGiving clientExit7) "example.org:22" "root" "secret" 5).1 =
        (some clientExit7, none) ∧
      (Exec (netGiving clientExit7) .result "example.org:22" "root" "secret" "exit 7" 5).result =
        .returned (7, "", "", none) :=
  ⟨rfl, (Exec_returns_result_verbatim (netGiving clientExit7) "example.org:22" "root" "secret"
    "exit 7" 5 clientExit7 (Run clientExit7 "exit 7").1 rfl rfl).1⟩

/-- C2: when session creation and the pseudo-terminal request succeed and the
command runs to completion with exit status `k` (0 when the library reports
no error, the status of the `ExitError` otherwise), `Run` returns a nil error,
`rc = k`, and the contents of the two capture buffers. -/
theorem Run_completed (client : Client) (cmd : String) (session : Session) (k : Int)
    (hs : client.NewSession = .ok session)
    (hp : session.RequestPty termType 80 40 modes = none)
    (hk : (session.Run cmd).exitedWith k) :
    (Run client cmd).1.err = none ∧ (Run client cmd).1.rc = k ∧
      (Run client cmd).1.stdout = (session.Run cmd).stdout ∧
      (Run client cmd).1.stderr = (session.Run cmd).stderr := by
  rw [Run_value_of_exited client cmd session k hs hp hk]
  exact ⟨rfl, rfl, rfl, rfl⟩

/-- Witness of C2: `exit 7` exits with status 7. -/
theorem Run_completed_witness :
    (Run clientExit7 "exit 7").1.err = none ∧ (Run clientExit7 "exit 7").1.rc = 7 ∧
      (Run clientExit7 "exit 7").1.stdout = "" ∧ (Run clientExit7 "exit 7").1.stderr = "" :=
  Run_completed clientExit7 "exit 7"
    (sessionReplying
      { stdout := "", stderr := "", err := some (.exitError 7 "Process exited with: 7") })
    7 rfl rfl (Or.inr ⟨"Process exited with: 7", rfl⟩)

/-- C3 (the code departs from it): when the run fails with an error that is
not an `ExitError`, here a dropped connection, `Run` returns a nil error: the
failure is not carried in the result, which reads as a clean exit with code 0. -/
theorem Run_drops_run_failure :
    (sessionReplying { stdout := "12:00 up", stderr := "", err := some (.other "EOF") }).Run
        "uptime" = { stdout := "12:00 up", stderr := "", err := some (.other "EOF") } ∧
      (Run clientDropped "uptime").1 =
        { err := none, rc := 0, stdout := "12:00 up", stderr := "" } := by
  exact ⟨rfl, rfl⟩

/-- C4 (the code departs from it): when the dial fails, `DialPassword`
returns a nil handle and the error, and `Exec` does not return `(0, "", "", e)`:
it panics on the nil handle at `defer client.Close()`. It has started neither
`Run` nor the timer. -/
theorem Exec_dial_failure_panics (race : Race) :
    (DialPassword netUnreachable "example.org:22" "root" "secret" 5).1 =
        (none, some (.other "dial tcp: connection refused")) ∧
      (Exec netUnreachable race "example.org:22" "root" "secret" "uptime" 5).result =
        .panicked nilDeref ∧
      (Exec netUnreachable race "example.org:22" "root" "secret" "uptime" 5).trace =
        [.dialTimeout "example.org:22" (seconds 5)] := by
  cases race <;> exact ⟨rfl, rfl, rfl⟩

/-- C5: when the dial succeeded and the timer case of the `select` fires,
`Exec` returns `rc = 0`, empty `stdout` and `stderr`, and an error whose
message is `Command timed out after <t> seconds`, where `<t>` is the decimal
numeral of the timeout (the library rendering `toString` of the integer),
whatever the server would have answered to `Run`. -/
theorem Exec_timeout_result (net : Network) (server username password cmd : String)
    (timeout : Int) (client : Client)
    (hdial : (DialPassword net server username password timeout).1 = (some client, none)) :
    ∃ e : GoError,
      (Exec net .deadline server username password cmd timeout).result =
        .returned (0, "", "", some e) ∧
      e.Error = "Command timed out after " ++ toString timeout ++ " seconds" := by
  refine ⟨_, Exec_deadline_value net server username password cmd timeout client hdial, ?_⟩
  show "Command timed out after " ++ fmtD timeout ++ " seconds" =
    "Command timed out after " ++ toString timeout ++ " seconds"
  rw [fmtD_eq_toString]

/-- Witness of C5: `sleep 1000` with a timeout of 120 seconds, and with the
negative timeout -3. -/
theorem Exec_timeout_result_witness :
    ((DialPassword (netGiving clientExit7) "example.org:22" "root" "secret" 120).1 =
        (some clientExit7, none) ∧
      ∃ e : GoError,
        (Exec (netGiving clientExit7) .deadline "example.org:22" "root" "secret" "sleep 1000"
            120).result = .returned (0, "", "", some e) ∧
        e.Error = "Command timed out after 120 seconds") ∧
    ((DialPassword (netGiving clientExit7) "example.org:22" "root" "secret" (-3)).1 =
        (some clientExit7, none) ∧
      ∃ e : GoError,
        (Exec (netGiving clientExit7) .deadline "example.org:22" "root" "secret" "sleep 1000"
            (-3)).result = .returned (0, "", "", some e) ∧
        e.Error = "Command timed out after -3 seconds") :=
  ⟨⟨rfl, Exec_timeout_result (netGiving clientExit7) "example.org:22" "root" "secret"
      "sleep 1000" 120 clientExit7 rfl⟩,
    ⟨rfl, Exec_timeout_result (netGiving clientExit7) "example.org:22" "root" "secret"
      "sleep 1000" (-3) clientExit7 rfl⟩⟩

/-- C6 (the code departs from it): after `Exec` returned on the timeout path,
the channel it made has capacity 0 and the goroutine is still evaluating
`Run`; once `Run` finishes with any value `r`, then however often the
goroutine is scheduled afterwards, it is still at the send of `r`: it never
exits. -/
theorem Exec_timeout_task_never_exits (r : Results) (sched : List (Option Results)) :
    (Exec (netGiving clientExit7) .deadline "example.org:22" "root" "secret" "sleep 10"
        1).chan = some { cap := 0, buf := [], receivers := 0 } ∧
      (Exec (netGiving clientExit7) .deadline "example.org:22" "root" "secret" "sleep 10"
        1).task = some .running ∧
      (Exec (netGiving clientExit7) .deadline "example.org:22" "root" "secret" "sleep 10"
        1).later (some r :: sched) = some (makeChan, .sending r) := by
  refine ⟨rfl, rfl, ?_⟩
  have h := steps_unbuffered makeChan rfl rfl sched (.sending r)
  have h1 : Task.steps makeChan (.sending r) sched = (makeChan, .sending r) :=
    Prod.ext h.1 (h.2.2 r rfl)
  show some (Task.steps makeChan (.sending r) sched) = some (makeChan, .sending r)
  rw [h1]

/-- C7 (the code departs from it): when the handshake rejects the password,
no handle is obtained and the release step does not complete: `Exec` ends in
the nil-pointer panic of `defer client.Close()`, and `Close` is never called. -/
theorem Exec_dial_failure_release_faults (race : Race) :
    (DialPassword netRejecting "example.org:22" "root" "wrong" 5).1 =
        (none, some (.other "ssh: unable to authenticate")) ∧
      (Exec netRejecting race "example.org:22" "root" "wrong" "uptime" 5).result ≠
        .returned (0, "", "", some (.other "ssh: unable to authenticate")) ∧
      (Exec netRejecting race "example.org:22" "root" "wrong" "uptime" 5).result =
        .panicked nilDeref ∧
      (Exec netRejecting race "example.org:22" "root" "wrong" "uptime" 5).trace.count
        .clientClose = 0 := by
  cases race <;> exact ⟨rfl, by decide, rfl, by decide⟩

/-- C8: when the session is created and the pseudo-terminal request fails
with error `e`, `Run` returns an error whose message is `request for pseudo
terminal failed: ` followed by the message of `e`, with `rc = 0` and empty
`stdout` and `stderr`, and the command is never run: the calls made are
`NewSession`, `RequestPty` and the deferred `session.Close`. -/
theorem Run_pty_failure (client : Client) (cmd : String) (session : Session) (e : GoError)
    (hs : client.NewSession = .ok session)
    (hp : session.RequestPty termType 80 40 modes = some e) :
    (∃ err : GoError, (Run client cmd).1.err = some err ∧
        err.Error = "request for pseudo terminal failed: " ++ e.Error) ∧
      (Run client cmd).1.rc = 0 ∧ (Run client cmd).1.stdout = "" ∧
      (Run client cmd).1.stderr = "" ∧
      (Run client cmd).2 =
        [.newSession, .requestPty termType 80 40 modes, .sessionClose] ∧
      (∀ c : String, Event.sessionRun c ∉ (Run client cmd).2) := by
  have h : Run client cmd =
      ({ err := some (.other ("request for pseudo terminal failed: " ++ e.Error)),
         rc := 0, stdout := "", stderr := "" },
       [.newSession, .requestPty termType 80 40 modes, .sessionClose]) := by
    unfold Run
    simp [hs, hp]
  rw [h]
  exact ⟨⟨_, rfl, rfl⟩, rfl, rfl, rfl, rfl, by simp⟩

/-- Witness of C8: a server that refuses the pseudo-terminal. -/
theorem Run_pty_failure_witness :
    (∃ err : GoError, (Run clientNoPty "uptime").1.err = some err ∧
        err.Error = "request for pseudo terminal failed: ssh: pty-req failed") ∧
      (Run clientNoPty "uptime").1.rc = 0 ∧ (Run clientNoPty "uptime").1.stdout = "" ∧
      (Run clientNoPty "uptime").1.stderr = "" ∧
      (Run clientNoPty "uptime").2 =
        [.newSession, .requestPty termType 80 40 modes, .sessionClose] ∧
      (∀ c : String, Event.sessionRun c ∉ (Run clientNoPty "uptime").2) :=
  Run_pty_failure clientNoPty "uptime" (sessionNoPty (.other "ssh: pty-req failed"))
    (.other "ssh: pty-req failed") rfl rfl

/-- C9: when session creation fails with error `e`, `Run` returns a result
carrying only that error: `err = e`, `rc = 0`, empty `stdout` and `stderr`;
`NewSession` is the only call made, so no pseudo-terminal is requested and
the command is never run. -/
theorem Run_session_failure (client : Client) (cmd : String) (e : GoError)
    (hs : client.NewSession = .error e) :
    (Run client cmd).1 = { err := some e, rc := 0, stdout := "", stderr := "" } ∧
      (Run client cmd).2 = [.newSession] ∧
      (∀ (t : String) (h w : Nat) (m : TerminalModes),
        Event.requestPty t h w m ∉ (Run client cmd).2) ∧
      (∀ c : String, Event.sessionRun c ∉ (Run client cmd).2) := by
  have h : Run client cmd =
      ({ err := some e, rc := 0, stdout := "", stderr := "" }, [.newSession]) := by
    unfold Run
    simp [hs]
  rw [h]
  exact ⟨rfl, rfl, by simp, by simp⟩

/-- Witness of C9: a server that refuses to open a session. -/
theorem Run_session_failure_witness :
    (Run clientNoSession "uptime").1 =
        { err := some (.other "ssh: rejected: administratively prohibited"), rc := 0,
          stdout := "", stderr := "" } ∧
      (Run clientNoSession "uptime").2 = [.newSession] ∧
      (∀ (t : String) (h w : Nat) (m : TerminalModes),
        Event.requestPty t h w m ∉ (Run clientNoSession "uptime").2) ∧
      (∀ c : String, Event.sessionRun c ∉ (Run clientNoSession "uptime").2) :=
  Run_session_failure clientNoSession "uptime"
    (.other "ssh: rejected: administratively prohibited") rfl

/-- C10: whenever `Exec` returns `(rc, out, err, e)`, on any path, a non-nil
`e` comes with `rc = 0` and empty `out` and `err`; equivalently a nonzero `rc`
or non-empty output is only returned together with a nil error. -/
theorem Exec_error_implies_defaults (net : Network) (race : Race)
    (server username password cmd : String) (timeout : Int)
    (rc : Int) (out err : String) (e : Option GoError)
    (h : (Exec net race server username password cmd timeout).result =
      .returned (rc, out, err, e)) :
    (e ≠ none → rc = 0 ∧ out = "" ∧ err = "") ∧
      ((rc ≠ 0 ∨ out ≠ "" ∨ err ≠ "") → e = none) := by
  have key : e ≠ none → rc = 0 ∧ out = "" ∧ err = "" := by
    intro hne
    rcases DialPassword_cases net server username password timeout with ⟨e1, hd⟩ | ⟨c, hd⟩
    · rw [(Exec_nil_handle net race server username password cmd timeout e1 hd).1] at h
      cases h
    · cases race with
      | result =>
        rw [Exec_result_value net server username password cmd timeout c hd] at h
        injection h with h
        injection h with hrc h
        injection h with hout h
        injection h with herr he
        cases hev : e with
        | none => exact absurd hev hne
        | some e2 =>
          have hd2 := Run_err_defaults c cmd e2 (by rw [he, hev])
          exact ⟨hrc ▸ hd2.1, hout ▸ hd2.2.1, herr ▸ hd2.2.2⟩
      | deadline =>
        rw [Exec_deadline_value net server username password cmd timeout c hd] at h
        injection h with h
        injection h with hrc h
        injection h with hout h
        injection h with herr he
        exact ⟨hrc.symm, hout.symm, herr.symm⟩
  refine ⟨key, ?_⟩
  intro hnz
  by_contra hne
  obtain ⟨h1, h2, h3⟩ := key hne
  rcases hnz with h0 | h0 | h0
  · exact h0 h1
  · exact h0 h2
  · exact h0 h3

/-- Witness of C10: the pseudo-terminal failure as returned by `Exec`. -/
theorem Exec_error_implies_defaults_witness :
    (Exec (netGiving clientNoPty) .result "example.org:22" "root" "secret" "uptime" 5).result =
        .returned (0, "", "",
          some (.other "request for pseudo terminal failed: ssh: pty-req failed")) ∧
      ((some (GoError.other "request for pseudo terminal failed: ssh: pty-req failed") ≠ none →
          (0 : Int) = 0 ∧ "" = "" ∧ "" = "") ∧
        (((0 : Int) ≠ 0 ∨ "" ≠ "" ∨ "" ≠ "") →
          some (GoError.other "request for pseudo terminal failed: ssh: pty-req failed") =
            none)) :=
  ⟨rfl, Exec_error_implies_defaults (netGiving clientNoPty) .result "example.org:22" "root"
    "secret" "uptime" 5 0 "" ""
    (some (.other "request for pseudo terminal failed: ssh: pty-req failed")) rfl⟩

end Sshclient
